import Mathlib

/-!
Shallow embedding of the gasless-transfer workflow of this repository:
the submit handler `handleSubmit` and the persistence helper
`saveTransactionToDB` in `src/components/NPYTransactionForm.tsx`, and the
wagmi transport configuration in `src/utils/config.ts`.

Dynamically-typed JavaScript values that the component probes are modelled
by `JsVal`; each remote call (orchestrator build, relayer quote / execute /
settlement poll, persistence POST) is modelled as an oracle recorded in an
`Env`, and `handleSubmit` reproduces the handler's control flow over those
oracles.  Every `toast(...)` call site is one constructor of `Toast`, with
`Toast.render` giving the exact string shown.
-/

namespace NPY

/-- A dynamically-typed JavaScript value, as probed by the defensive field
checks in the form component.  Numbers are modelled as integers (no NaN);
`vObj` is an arbitrary (truthy) object. -/
inductive JsVal where
  | vUndefined
  | vNull
  | vBool (b : Bool)
  | vNum (n : Int)
  | vStr (s : String)
  | vObj
  deriving DecidableEq, Repr

/-- JavaScript truthiness of the modelled values. -/
def truthy : JsVal → Bool
  | .vUndefined => false
  | .vNull => false
  | .vBool b => b
  | .vNum n => decide (n ≠ 0)
  | .vStr s => decide (s ≠ "")
  | .vObj => true

/-- JavaScript `a || b`. -/
def jsOr (a b : JsVal) : JsVal := if truthy a then a else b

/-- JavaScript `s.toLowerCase()` on a string, character-wise (exact on
ASCII, which covers hex chain addresses). -/
def jsToLower (s : String) : String := ⟨s.data.map Char.toLower⟩

/-- Whether the second character list starts with the first. -/
def isPrefixList : List Char → List Char → Bool
  | [], _ => true
  | _ :: _, [] => false
  | a :: as, b :: bs => a == b && isPrefixList as bs

/-- Fuel-driven worker for `splitOnStr`; the recursion is structural on the
fuel so the definition evaluates by plain reduction. -/
def splitOnFuel (sep : List Char) :
    Nat → List Char → List Char → List (List Char)
  | _, [], acc => [acc.reverse]
  | 0, c :: rest, acc => [acc.reverse ++ (c :: rest)]
  | fuel + 1, c :: rest, acc =>
      if isPrefixList sep (c :: rest) then
        acc.reverse :: splitOnFuel sep fuel (List.drop (sep.length - 1) rest) []
      else
        splitOnFuel sep fuel rest (c :: acc)

/-- JavaScript `s.split(sep)` for a nonempty separator: the chunks between
the non-overlapping left-to-right occurrences of `sep`. -/
def splitOnStr (s sep : String) : List String :=
  (splitOnFuel sep.data (s.data.length + 1) s.data []).map List.asString

/-- `s.slice(n)` on characters. -/
def strDrop (s : String) (n : Nat) : String := ⟨s.data.drop n⟩

/-- `s.slice(0, n)` on characters. -/
def strTake (s : String) (n : Nat) : String := ⟨s.data.take n⟩

/-- Character count of a string. -/
def strLen (s : String) : Nat := s.data.length

/-- All characters are decimal digits. -/
def allDigits (s : String) : Bool := s.data.all Char.isDigit

/-- `s.startsWith("-")`. -/
def startsWithDash (s : String) : Bool :=
  match s.data with
  | c :: _ => c == '-'
  | [] => false

/-- JavaScript `v.toLowerCase()`: defined on strings, a TypeError
(modelled as `Except.error ()`) on every other value. -/
def jsToLowerCase : JsVal → Except Unit String
  | .vStr s => .ok (jsToLower s)
  | _ => .error ()

/-- The `undefined`-or-string value of an environment variable. -/
def jsOfOption : Option String → JsVal
  | some s => .vStr s
  | none => .vUndefined

/-- One mined transaction inside a supertransaction receipt.  The field
`fromF` models the JavaScript property `from` (a Lean keyword); all three
sender-ish properties are dynamic values since the SDK shape is untyped. -/
structure MinedReceipt where
  fromF : JsVal
  fromAddress : JsVal
  sender : JsVal
  transactionHash : String
  deriving DecidableEq, Repr

/-- The receipt returned by `waitForSupertransactionReceipt`; `receipts`
is `none` when the `receipts` array is absent (`undefined`). -/
structure SupertransactionReceipt where
  transactionStatus : String
  receipts : Option (List MinedReceipt)
  deriving DecidableEq, Repr

/-- The quote returned by `getFusionQuote`; the three properties probed by
the defensive sponsorship check. -/
structure FusionQuote where
  sponsor : JsVal
  sponsored : JsVal
  isSponsored : JsVal
  deriving DecidableEq, Repr

/-- A thrown JavaScript value as seen by `catch (error: any)`: either a
value whose `message` property is a string (an `Error` instance or similar),
or a value whose `message` property is not a string (a thrown plain string,
number, `null`, ...), on which the handler's `error.message.includes`
itself throws a TypeError. -/
inductive JsError where
  | errObj (message : String)
  | noMessage
  deriving DecidableEq, Repr

/-- Behaviour of the persistence `fetch` POST. -/
inductive PersistResponse where
  | httpOk
  | httpNotOk
  | netThrow
  deriving DecidableEq, Repr

/-- The two controlled form fields. -/
structure FormData where
  recipient : String
  amount : String
  deriving DecidableEq, Repr

/-- Digit string read as a natural number (JavaScript `BigInt` on a digit
string; `BigInt("")` is `0n`). -/
def digitsToNat (s : String) : Nat :=
  s.data.foldl (fun n c => n * 10 + (c.toNat - 48)) 0

/-- Model of the regex `^(-?)([0-9]*)\.?([0-9]*)$` guarding viem's
`parseUnits`: an optional leading minus, then digits with at most one dot. -/
def isDecimalString (s : String) : Bool :=
  let body := if startsWithDash s then strDrop s 1 else s
  match splitOnStr body "." with
  | [i] => allDigits i
  | [i, f] => allDigits i && allDigits f
  | _ => false

/-- Strip trailing `'0'` characters (`fraction.replace(/(0+)$/, '')`). -/
def trimTrailingZeros (s : String) : String :=
  ⟨(s.data.reverse.dropWhile (· == '0')).reverse⟩

/-- `s.padEnd(n, '0')`. -/
def padEndZeros (s : String) (n : Nat) : String :=
  s ++ ⟨List.replicate (n - strLen s) '0'⟩

/-- `s.padStart(n, '0')`. -/
def padStartZeros (s : String) (n : Nat) : String :=
  (⟨List.replicate (n - strLen s) '0'⟩ : String) ++ s

/-- Whether JavaScript `Math.round` on `0.<digits>` rounds up: true exactly
when the leading digit is at least 5 (an empty digit string gives NaN,
which does not round to 1). -/
def roundsUp (digits : String) : Bool :=
  match digits.data with
  | [] => false
  | c :: _ => decide (c.toNat ≥ 53)

/-- Model of viem's `parseUnits(value, decimals)` (library code called at
NPYTransactionForm.tsx line 40): strings outside the decimal regex are
rejected with an `InvalidDecimalNumberError`; otherwise the value is split
into integer and fraction parts, trailing zeros of the fraction are
trimmed, the fraction is rounded to `decimals` digits (with carry into the
integer part), and the concatenated digits give the base-unit integer. -/
def parseUnits (value : String) (decimals : Nat) : Except JsError Int :=
  if ¬ isDecimalString value then
    .error (.errObj ("Number " ++ value ++ " is not a valid decimal number."))
  else
    let parts := splitOnStr value "."
    let integer0 := parts.headD ""
    let fraction0 := parts.getD 1 "0"
    let negative := startsWithDash integer0
    let integer1 := if negative then strDrop integer0 1 else integer0
    let fraction1 := trimTrailingZeros fraction0
    if decimals = 0 then
      let integer2 :=
        if roundsUp fraction1 then toString (digitsToNat integer1 + 1) else integer1
      let n : Int := (digitsToNat integer2 : Int)
      .ok (if negative then -n else n)
    else if strLen fraction1 > decimals then
      let left := strTake fraction1 (decimals - 1)
      let unit := strTake (strDrop fraction1 (decimals - 1)) 1
      let right := strDrop fraction1 decimals
      let rounded := digitsToNat unit + (if roundsUp right then 1 else 0)
      let fraction2 :=
        if rounded > 9 then
          padStartZeros (toString (digitsToNat left + 1) ++ "0") (strLen left + 1)
        else left ++ toString rounded
      let carried :=
        if strLen fraction2 > decimals then
          (toString (digitsToNat integer1 + 1), strDrop fraction2 1)
        else (integer1, fraction2)
      let fraction3 := strTake carried.2 decimals
      let n : Int := (digitsToNat (carried.1 ++ fraction3) : Int)
      .ok (if negative then -n else n)
    else
      let n : Int := (digitsToNat (integer1 ++ padEndZeros fraction1 decimals) : Int)
      .ok (if negative then -n else n)

/-- JavaScript `s.includes(sub)` for the nonempty literal substrings probed
by the catch handler. -/
def jsIncludes (s sub : String) : Bool := (splitOnStr s sub).length > 1

/-- A user-visible notification; one constructor per `toast(...)` call site
in NPYTransactionForm.tsx. -/
inductive Toast where
  | connectWallet
  | sponsorshipAdvisory
  | userPaidGas
  | relayerPaidGas
  | success
  | gasTankEmpty
  | sponsorshipNotEnabled
  | txFailed (message : String)
  deriving DecidableEq, Repr

/-- The exact string each toast call site renders. -/
def Toast.render : Toast → String
  | .connectWallet => "Please connect wallet and ensure Biconomy is initialized"
  | .sponsorshipAdvisory =>
      "Sponsorship not available — attempting to execute (user may pay gas)."
  | .userPaidGas =>
      "Transaction executed, but it appears the user paid gas (sponsorship did not apply)."
  | .relayerPaidGas => "Transaction executed gaslessly (relayer paid gas)."
  | .success => "🎉 Gasless transaction successful! No POL spent."
  | .gasTankEmpty => "Biconomy gas tank might be empty. Check your dashboard."
  | .sponsorshipNotEnabled => "Sponsorship not enabled. Contact Biconomy support."
  | .txFailed m => "Transaction failed: " ++ m

/-- The catch block at the bottom of `handleSubmit` (lines 156-166): picks a
toast from `error.message`; when the thrown value has no string `message`,
the `error.message.includes` call itself throws, so the handler fails. -/
def catchHandler : JsError → Except Unit Toast
  | .errObj m =>
      if jsIncludes m "insufficient funds" then .ok .gasTankEmpty
      else if jsIncludes m "sponsorship" then .ok .sponsorshipNotEnabled
      else .ok (.txFailed m)
  | .noMessage => .error ()

/-- Payer classification derived by the reconciliation step. -/
inductive Payer where
  | USER_PAID
  | SPONSORED
  | UNKNOWN
  deriving DecidableEq, Repr

/-- `(minedReceipt.from || minedReceipt.fromAddress || minedReceipt.sender || "")`
(line 115). -/
def selectSenderField (m : MinedReceipt) : JsVal :=
  jsOr m.fromF (jsOr m.fromAddress (jsOr m.sender (.vStr "")))

/-- The payer-detection block (lines 111-129): picks the first mined
receipt if the `receipts` array is present and nonempty, lowercases its
sender-ish field and compares it with the lowercased user address; any
exception inside the block is caught and logged, yielding no toast.
Returns the classification together with the toasts the block emits. -/
def detectPayer (receipt : SupertransactionReceipt) (address : String) :
    Payer × List Toast :=
  match receipt.receipts with
  | some (m :: _) =>
      match jsToLowerCase (selectSenderField m) with
      | .ok txFrom =>
          if txFrom = jsToLower address then (.USER_PAID, [.userPaidGas])
          else (.SPONSORED, [.relayerPaidGas])
      | .error _ => (.UNKNOWN, [])
  | _ => (.UNKNOWN, [])

/-- `!!(fusionQuote?.sponsor || fusionQuote?.sponsored || fusionQuote?.isSponsored)`
(line 76). -/
def sponsorAvailable (fq : FusionQuote) : Bool :=
  truthy fq.sponsor || truthy fq.sponsored || truthy fq.isSponsored

/-- Model of `saveTransactionToDB` (lines 172-189): a non-2xx response
throws `"Failed to save transaction"`, and every exception — including a
network error thrown by `fetch` itself — is caught and logged inside the
function, so it always returns normally; `none` is the caught-and-logged
failure path, `some ()` the parsed 2xx response. -/
def saveTransactionToDB : PersistResponse → Option Unit
  | .httpOk => some ()
  | .httpNotOk => none
  | .netThrow => none

/-- `["SUCCESS", "MINED_SUCCESS"]` (line 132). -/
def successStatuses : List String := ["SUCCESS", "MINED_SUCCESS"]

/-- `receipt.receipts?.length > 0` (line 135): false when the array is
absent (`undefined > 0` is false). -/
def receiptsNonempty (r : SupertransactionReceipt) : Bool :=
  match r.receipts with
  | some l => decide (0 < l.length)
  | none => false

/-- The environment of one submit: presence of the Biconomy client, the
orchestrator and the connected address, the token-address environment
variable, the form contents, and one oracle for each remote call's
behaviour. -/
structure Env where
  meeClient : Bool
  orchestrator : Bool
  address : Option String
  npyTokenAddress : Option String
  form : FormData
  buildResult : Except JsError Unit
  quoteResult : Except JsError FusionQuote
  executeResult : Except JsError String
  settlementResult : Except JsError SupertransactionReceipt
  persistResponse : PersistResponse

/-- How one invocation of the handler ends: early précondition return,
normal completion, a caught failure, or an exception escaping the handler. -/
inductive Outcome where
  | earlyReturn
  | completed
  | failed
  | crashed
  deriving DecidableEq, Repr

/-- Observable result of one submit: the terminal outcome, the toasts in
emission order, the number of relayer (`meeClient`) calls issued
(quote, execute, settlement poll), the persistence call and its result
(`none` when the POST was never issued), the payer classification computed
by the detection block, the final form state, and the error value that
reached the outer catch. -/
structure SubmitResult where
  outcome : Outcome
  toasts : List Toast
  relayCalls : Nat
  persistResult : Option (Option Unit)
  payer : Option Payer
  form : FormData
  caughtError : Option JsError
  deriving DecidableEq, Repr

/-- The token-address read at line 38
(`import.meta.env.VITE_NPY_TOKEN_ADDRESS as ...`): performed, unchecked,
as soon as the guard passes; `vUndefined` when the variable is absent.
`none` means the handler returned before reaching the read. -/
def tokenAddressRead (env : Env) : Option JsVal :=
  match env.meeClient, env.orchestrator, env.address with
  | true, true, some _ => some (jsOfOption env.npyTokenAddress)
  | _, _, _ => none

/-- The early return of the guard (lines 31-34): one advisory toast, no
loading flag, nothing else happens. -/
def earlyResult (env : Env) : SubmitResult :=
  { outcome := .earlyReturn, toasts := [.connectWallet], relayCalls := 0,
    persistResult := none, payer := none, form := env.form,
    caughtError := none }

/-- Finish a run whose try-block threw `e`: the outer catch picks a toast,
or itself crashes when `e` carries no string message. -/
def failWith (env : Env) (toasts : List Toast) (calls : Nat)
    (payer : Option Payer) (e : JsError) : SubmitResult :=
  match catchHandler e with
  | .ok t =>
      { outcome := .failed, toasts := toasts ++ [t], relayCalls := calls,
        persistResult := none, payer := payer, form := env.form,
        caughtError := some e }
  | .error _ =>
      { outcome := .crashed, toasts := toasts, relayCalls := calls,
        persistResult := none, payer := payer, form := env.form,
        caughtError := some e }

/-- The submit handler `handleSubmit` of NPYTransactionForm.tsx (lines
28-170): guard on client / orchestrator / address, read the token address,
parse the amount, build the instruction, get the fusion quote, probe
sponsorship, execute, await the settlement receipt, detect the payer,
check the settlement status, persist and reset the form on success, and
route every thrown error through the catch block. -/
def handleSubmit (env : Env) : SubmitResult :=
  match env.meeClient, env.orchestrator, env.address with
  | true, true, some addr =>
    match parseUnits env.form.amount 18 with
    | .error e => failWith env [] 0 none e
    | .ok _amountInWei =>
      match env.buildResult with
      | .error e => failWith env [] 0 none e
      | .ok _ =>
        match env.quoteResult with
        | .error e => failWith env [] 1 none e
        | .ok fq =>
          let advisory : List Toast :=
            if sponsorAvailable fq then [] else [.sponsorshipAdvisory]
          match env.executeResult with
          | .error e => failWith env advisory 2 none e
          | .ok _userOpHash =>
            match env.settlementResult with
            | .error e => failWith env advisory 3 none e
            | .ok receipt =>
              let pd := detectPayer receipt addr
              let toasts := advisory ++ pd.2
              if successStatuses.contains receipt.transactionStatus
                  && receiptsNonempty receipt then
                { outcome := .completed,
                  toasts := toasts ++ [.success],
                  relayCalls := 3,
                  persistResult := some (saveTransactionToDB env.persistResponse),
                  payer := some pd.1,
                  form := { recipient := "0x", amount := "" },
                  caughtError := none }
              else
                failWith env toasts 3 (some pd.1)
                  (.errObj ("Transaction failed with status: " ++ receipt.transactionStatus))
  | _, _, _ => earlyResult env

/-- Model of the transport URL in `src/utils/config.ts` lines 10-14:
`http(import.meta.env.VITE_POLYGON_RPC_URL || "https://polygon-rpc.com")`;
an absent (or empty, hence falsy) variable silently falls back to the
public endpoint. -/
def configRpcUrl (envRpcUrl : Option String) : String :=
  match envRpcUrl with
  | some u => if u = "" then "https://polygon-rpc.com" else u
  | none => "https://polygon-rpc.com"

/-! Concrete fixtures used by witnesses and counterexamples. -/

/-- A quote exposing a `sponsor` object. -/
def quoteSponsoredF : FusionQuote :=
  { sponsor := .vObj, sponsored := .vUndefined, isSponsored := .vUndefined }

/-- A quote exposing none of the three sponsorship indicators. -/
def quoteNoSponsorF : FusionQuote :=
  { sponsor := .vUndefined, sponsored := .vUndefined, isSponsored := .vUndefined }

/-- A mined transaction whose `from` is the relayer. -/
def minedFromRelayer : MinedReceipt :=
  { fromF := .vStr "0xRELAYER", fromAddress := .vUndefined,
    sender := .vUndefined, transactionHash := "0x1" }

/-- A mined transaction carrying no sender-ish field at all. -/
def minedNoSender : MinedReceipt :=
  { fromF := .vUndefined, fromAddress := .vUndefined,
    sender := .vUndefined, transactionHash := "0x1" }

/-- A successful settlement receipt with one relayer-funded transaction. -/
def receiptSuccessF : SupertransactionReceipt :=
  { transactionStatus := "SUCCESS", receipts := some [minedFromRelayer] }

/-- A successful settlement receipt whose mined transaction has no
sender-ish field. -/
def receiptNoSenderF : SupertransactionReceipt :=
  { transactionStatus := "SUCCESS", receipts := some [minedNoSender] }

/-- A settlement receipt whose status is FAILED (mined list nonempty). -/
def receiptFailedF : SupertransactionReceipt :=
  { transactionStatus := "FAILED", receipts := some [minedFromRelayer] }

/-- A fully successful environment: everything present, every oracle happy. -/
def baseEnv : Env :=
  { meeClient := true, orchestrator := true, address := some "0xUSER",
    npyTokenAddress := some "0xNPY",
    form := { recipient := "0xdest", amount := "10" },
    buildResult := .ok (), quoteResult := .ok quoteSponsoredF,
    executeResult := .ok "0xophash", settlementResult := .ok receiptSuccessF,
    persistResponse := .httpOk }

/-- `baseEnv` with amount `"0"`. -/
def envAmountZero : Env :=
  { baseEnv with form := { recipient := "0xdest", amount := "0" } }

/-- `baseEnv` with no connected address. -/
def envNoAddress : Env := { baseEnv with address := none }

/-- `baseEnv` with a sponsorless quote. -/
def envNoSponsor : Env := { baseEnv with quoteResult := .ok quoteNoSponsorF }

/-- `baseEnv` with a FAILED settlement receipt. -/
def envSettlementFailed : Env := { baseEnv with settlementResult := .ok receiptFailedF }

/-- `baseEnv` with a failing (HTTP 500) persistence endpoint. -/
def envPersistFailed : Env := { baseEnv with persistResponse := .httpNotOk }

/-- `baseEnv` with the token-address environment variable absent. -/
def envNoToken : Env := { baseEnv with npyTokenAddress := none }

/-- Sponsorless quote and FAILED settlement status together. -/
def envAdvisoryThenFailed : Env :=
  { baseEnv with quoteResult := .ok quoteNoSponsorF,
                 settlementResult := .ok receiptFailedF }

/-- The quote step throws a value without a string `message`. -/
def envThrownNoMessage : Env := { baseEnv with quoteResult := .error .noMessage }

/-- The quote step throws an ordinary `Error` with a message. -/
def envQuoteError : Env :=
  { baseEnv with quoteResult := .error (.errObj "relayer quote rejected") }

/-- Amount of `baseEnv` in base units. -/
def tenTokens : Int := 10000000000000000000

/-- Catch-handler toasts (the three possible outputs of `catchHandler`). -/
def isCatchToast : Toast → Bool
  | .gasTankEmpty => true
  | .sponsorshipNotEnabled => true
  | .txFailed _ => true
  | _ => false

/-- Payer-classification toasts of the detection block. -/
def isPayerToast : Toast → Bool
  | .userPaidGas => true
  | .relayerPaidGas => true
  | _ => false

/-- Toasts that can precede a failure toast inside one run: the sponsorship
advisory and the two payer-classification toasts. -/
def benign (x : Toast) : Prop :=
  x = .sponsorshipAdvisory ∨ x = .userPaidGas ∨ x = .relayerPaidGas

/-! Helper lemmas about the catch handler, the detection block and the
overall shape of a run. -/

/-- On an error value with a string message the catch handler always
succeeds, and its toast is one of the three catch toasts. -/
theorem catchHandler_errObj (m : String) :
    ∃ t, catchHandler (.errObj m) = .ok t ∧ isCatchToast t = true := by
  simp only [catchHandler]
  split
  · exact ⟨_, rfl, rfl⟩
  · split
    · exact ⟨_, rfl, rfl⟩
    · exact ⟨_, rfl, rfl⟩

/-- `failWith` on an error with a string message: one catch toast is
appended and the run fails. -/
theorem failWith_errObj (env : Env) (toasts : List Toast) (calls : Nat)
    (payer : Option Payer) (m : String) :
    ∃ t, isCatchToast t = true ∧
      failWith env toasts calls payer (.errObj m) =
        { outcome := .failed, toasts := toasts ++ [t], relayCalls := calls,
          persistResult := none, payer := payer, form := env.form,
          caughtError := some (.errObj m) } := by
  obtain ⟨t, ht, hct⟩ := catchHandler_errObj m
  refine ⟨t, hct, ?_⟩
  unfold failWith
  rw [ht]

/-- `failWith` on an error without a string message: the catch handler
itself throws and the run crashes with no further toast. -/
theorem failWith_noMessage (env : Env) (toasts : List Toast) (calls : Nat)
    (payer : Option Payer) :
    failWith env toasts calls payer .noMessage =
      { outcome := .crashed, toasts := toasts, relayCalls := calls,
        persistResult := none, payer := payer, form := env.form,
        caughtError := some .noMessage } := rfl

/-- The detection block returns one of exactly three result pairs. -/
theorem detectPayer_cases (r : SupertransactionReceipt) (a : String) :
    detectPayer r a = (.USER_PAID, [.userPaidGas]) ∨
    detectPayer r a = (.SPONSORED, [.relayerPaidGas]) ∨
    detectPayer r a = (.UNKNOWN, []) := by
  unfold detectPayer
  split
  · split
    · split
      · exact Or.inl rfl
      · exact Or.inr (Or.inl rfl)
    · exact Or.inr (Or.inr rfl)
  · exact Or.inr (Or.inr rfl)

/-- A benign toast is not a catch toast. -/
theorem benign_not_catch (x : Toast) (h : benign x) : isCatchToast x = false := by
  rcases h with rfl | rfl | rfl <;> rfl

/-- A benign toast is not the success toast. -/
theorem benign_not_success (x : Toast) (h : benign x) : x ≠ .success := by
  rcases h with rfl | rfl | rfl <;> simp

/-- Every run of the handler has one of four shapes: the early guard
return, a caught failure on a message-carrying error preceded only by
benign toasts, a crash on a message-less error, or normal completion with
the success toast after the optional advisory and payer toasts. -/
theorem handleSubmit_char (env : Env) :
    handleSubmit env = earlyResult env ∨
    (∃ pre calls payer m, (∀ x ∈ pre, benign x) ∧
        handleSubmit env = failWith env pre calls payer (.errObj m)) ∨
    (∃ pre calls payer,
        handleSubmit env = failWith env pre calls payer .noMessage) ∨
    (∃ adv pd, (adv = ([] : List Toast) ∨ adv = [Toast.sponsorshipAdvisory]) ∧
        (pd = (Payer.USER_PAID, [Toast.userPaidGas]) ∨
         pd = (Payer.SPONSORED, [Toast.relayerPaidGas]) ∨
         pd = (Payer.UNKNOWN, ([] : List Toast))) ∧
        handleSubmit env =
          { outcome := .completed, toasts := (adv ++ pd.2) ++ [.success],
            relayCalls := 3,
            persistResult := some (saveTransactionToDB env.persistResponse),
            payer := some pd.1, form := { recipient := "0x", amount := "" },
            caughtError := none }) := by
  unfold handleSubmit
  cases hm : env.meeClient <;> cases ho : env.orchestrator <;> cases ha : env.address
  all_goals try exact Or.inl rfl
  rename_i addr
  cases hp : parseUnits env.form.amount 18 with
  | error e =>
    cases e with
    | errObj m => exact Or.inr (Or.inl ⟨[], 0, none, m, by simp, rfl⟩)
    | noMessage => exact Or.inr (Or.inr (Or.inl ⟨[], 0, none, rfl⟩))
  | ok n =>
  cases hb : env.buildResult with
  | error e =>
    cases e with
    | errObj m => exact Or.inr (Or.inl ⟨[], 0, none, m, by simp, rfl⟩)
    | noMessage => exact Or.inr (Or.inr (Or.inl ⟨[], 0, none, rfl⟩))
  | ok u =>
  cases hq : env.quoteResult with
  | error e =>
    cases e with
    | errObj m => exact Or.inr (Or.inl ⟨[], 1, none, m, by simp, rfl⟩)
    | noMessage => exact Or.inr (Or.inr (Or.inl ⟨[], 1, none, rfl⟩))
  | ok fq =>
  have hadv : ∀ x ∈ (if sponsorAvailable fq then ([] : List Toast)
      else [Toast.sponsorshipAdvisory]), benign x := by
    split <;> simp [benign]
  have hadv2 : (if sponsorAvailable fq then ([] : List Toast)
        else [Toast.sponsorshipAdvisory]) = [] ∨
      (if sponsorAvailable fq then ([] : List Toast)
        else [Toast.sponsorshipAdvisory]) = [Toast.sponsorshipAdvisory] := by
    split
    · exact Or.inl rfl
    · exact Or.inr rfl
  cases he : env.executeResult with
  | error e =>
    cases e with
    | errObj m => exact Or.inr (Or.inl ⟨_, 2, none, m, hadv, rfl⟩)
    | noMessage => exact Or.inr (Or.inr (Or.inl ⟨_, 2, none, rfl⟩))
  | ok oph =>
  cases hs : env.settlementResult with
  | error e =>
    cases e with
    | errObj m => exact Or.inr (Or.inl ⟨_, 3, none, m, hadv, rfl⟩)
    | noMessage => exact Or.inr (Or.inr (Or.inl ⟨_, 3, none, rfl⟩))
  | ok receipt =>
  rcases detectPayer_cases receipt addr with hpd | hpd | hpd <;>
    simp only [hpd] <;> split
  · exact Or.inr (Or.inr (Or.inr
      ⟨_, (Payer.USER_PAID, [Toast.userPaidGas]), hadv2, Or.inl rfl, rfl⟩))
  · refine Or.inr (Or.inl ⟨_, 3, some Payer.USER_PAID, _, ?_, rfl⟩)
    intro x hx
    rcases List.mem_append.mp hx with hx | hx
    · exact hadv x hx
    · exact Or.inr (Or.inl (by simpa using hx))
  · exact Or.inr (Or.inr (Or.inr
      ⟨_, (Payer.SPONSORED, [Toast.relayerPaidGas]), hadv2,
        Or.inr (Or.inl rfl), rfl⟩))
  · refine Or.inr (Or.inl ⟨_, 3, some Payer.SPONSORED, _, ?_, rfl⟩)
    intro x hx
    rcases List.mem_append.mp hx with hx | hx
    · exact hadv x hx
    · exact Or.inr (Or.inr (by simpa using hx))
  · exact Or.inr (Or.inr (Or.inr
      ⟨_, (Payer.UNKNOWN, ([] : List Toast)), hadv2,
        Or.inr (Or.inr rfl), rfl⟩))
  · refine Or.inr (Or.inl ⟨_, 3, some Payer.UNKNOWN, _, ?_, rfl⟩)
    intro x hx
    rcases List.mem_append.mp hx with hx | hx
    · exact hadv x hx
    · exact absurd hx (List.not_mem_nil x)

/-- `failWith` keeps the payer argument. -/
theorem failWith_payer (env : Env) (ts : List Toast) (calls : Nat)
    (payer : Option Payer) (e : JsError) :
    (failWith env ts calls payer e).payer = payer := by
  cases hca : catchHandler e <;> simp [failWith, hca]

/-- `failWith` keeps the call count. -/
theorem failWith_relayCalls (env : Env) (ts : List Toast) (calls : Nat)
    (payer : Option Payer) (e : JsError) :
    (failWith env ts calls payer e).relayCalls = calls := by
  cases hca : catchHandler e <;> simp [failWith, hca]

/-- `failWith` never issues the persistence call. -/
theorem failWith_persist (env : Env) (ts : List Toast) (calls : Nat)
    (payer : Option Payer) (e : JsError) :
    (failWith env ts calls payer e).persistResult = none := by
  cases hca : catchHandler e <;> simp [failWith, hca]

/-- `failWith` records the error that reached the catch block. -/
theorem failWith_caught (env : Env) (ts : List Toast) (calls : Nat)
    (payer : Option Payer) (e : JsError) :
    (failWith env ts calls payer e).caughtError = some e := by
  cases hca : catchHandler e <;> simp [failWith, hca]

/-- `failWith` leaves the form untouched. -/
theorem failWith_form (env : Env) (ts : List Toast) (calls : Nat)
    (payer : Option Payer) (e : JsError) :
    (failWith env ts calls payer e).form = env.form := by
  cases hca : catchHandler e <;> simp [failWith, hca]

/-- `failWith` on a message-carrying error fails (it does not crash). -/
theorem failWith_outcome_errObj (env : Env) (ts : List Toast) (calls : Nat)
    (payer : Option Payer) (m : String) :
    (failWith env ts calls payer (.errObj m)).outcome = .failed := by
  obtain ⟨t, _, hfw⟩ := failWith_errObj env ts calls payer m
  rw [hfw]

/-- Benign toasts are filtered away by the catch-toast filter. -/
theorem filter_catch_of_benign (pre : List Toast) (h : ∀ x ∈ pre, benign x) :
    pre.filter isCatchToast = [] :=
  List.filter_eq_nil_iff.mpr fun a ha => by simp [benign_not_catch a (h a ha)]

/-- The sponsorship advisory is never a catch toast. -/
theorem advisory_notin_catch (t : Toast) (h : isCatchToast t = true) :
    Toast.sponsorshipAdvisory ∉ [t] := by
  cases t <;> simp_all [isCatchToast]

/-- Membership of the advisory in the advisory list is exactly the absence
of all three sponsorship indicators. -/
theorem advisory_mem_core (fq : FusionQuote) :
    Toast.sponsorshipAdvisory ∈ (if sponsorAvailable fq then ([] : List Toast)
        else [Toast.sponsorshipAdvisory]) ↔
      ¬ (truthy fq.sponsor = true ∨ truthy fq.sponsored = true ∨
          truthy fq.isSponsored = true) := by
  cases hsp : sponsorAvailable fq
  · have hor : ¬ (truthy fq.sponsor = true ∨ truthy fq.sponsored = true ∨
        truthy fq.isSponsored = true) := by
      intro hor
      have ht : sponsorAvailable fq = true := by
        simp only [sponsorAvailable, Bool.or_eq_true]
        tauto
      rw [ht] at hsp
      exact absurd hsp (by simp)
    simp [hor]
  · have hor : truthy fq.sponsor = true ∨ truthy fq.sponsored = true ∨
        truthy fq.isSponsored = true := by
      have h2 := hsp
      simp only [sponsorAvailable, Bool.or_eq_true] at h2
      tauto
    simp [hor]

/-- Same as `advisory_mem_core`, after appending a tail free of the
advisory toast. -/
theorem advisory_mem_iff (fq : FusionQuote) (tail : List Toast)
    (htail : Toast.sponsorshipAdvisory ∉ tail) :
    Toast.sponsorshipAdvisory ∈ (if sponsorAvailable fq then ([] : List Toast)
        else [Toast.sponsorshipAdvisory]) ++ tail ↔
      ¬ (truthy fq.sponsor = true ∨ truthy fq.sponsored = true ∨
          truthy fq.isSponsored = true) := by
  rw [List.mem_append]
  constructor
  · rintro (h | h)
    · exact (advisory_mem_core fq).mp h
    · exact absurd h htail
  · intro h
    exact Or.inl ((advisory_mem_core fq).mpr h)

/-- After a fully successful pipeline up to settlement, the run is exactly
the status check on the receipt: either the completed record or the failure
path on the status error. -/
theorem handleSubmit_settled (env : Env) (addr : String) (n : Int)
    (fq : FusionQuote) (oph : String) (receipt : SupertransactionReceipt)
    (hmee : env.meeClient = true) (horc : env.orchestrator = true)
    (haddr : env.address = some addr)
    (hparse : parseUnits env.form.amount 18 = Except.ok n)
    (hbuild : env.buildResult = Except.ok ())
    (hquote : env.quoteResult = Except.ok fq)
    (hexec : env.executeResult = Except.ok oph)
    (hsettle : env.settlementResult = Except.ok receipt) :
    handleSubmit env =
      (if (successStatuses.contains receipt.transactionStatus &&
            receiptsNonempty receipt) = true then
        { outcome := .completed,
          toasts := ((if sponsorAvailable fq then ([] : List Toast)
              else [Toast.sponsorshipAdvisory]) ++
            (detectPayer receipt addr).2) ++ [Toast.success],
          relayCalls := 3,
          persistResult := some (saveTransactionToDB env.persistResponse),
          payer := some (detectPayer receipt addr).1,
          form := { recipient := "0x", amount := "" },
          caughtError := none }
      else
        failWith env ((if sponsorAvailable fq then ([] : List Toast)
              else [Toast.sponsorshipAdvisory]) ++
            (detectPayer receipt addr).2) 3 (some (detectPayer receipt addr).1)
          (.errObj ("Transaction failed with status: " ++
            receipt.transactionStatus))) := by
  simp only [handleSubmit, hmee, horc, haddr, hparse, hbuild, hquote, hexec,
    hsettle]

/-- `handleSubmit_settled`, completed branch. -/
theorem handleSubmit_settled_completed (env : Env) (addr : String) (n : Int)
    (fq : FusionQuote) (oph : String) (receipt : SupertransactionReceipt)
    (hmee : env.meeClient = true) (horc : env.orchestrator = true)
    (haddr : env.address = some addr)
    (hparse : parseUnits env.form.amount 18 = Except.ok n)
    (hbuild : env.buildResult = Except.ok ())
    (hquote : env.quoteResult = Except.ok fq)
    (hexec : env.executeResult = Except.ok oph)
    (hsettle : env.settlementResult = Except.ok receipt)
    (hcond : (successStatuses.contains receipt.transactionStatus &&
        receiptsNonempty receipt) = true) :
    handleSubmit env =
      { outcome := .completed,
        toasts := ((if sponsorAvailable fq then ([] : List Toast)
            else [Toast.sponsorshipAdvisory]) ++
          (detectPayer receipt addr).2) ++ [Toast.success],
        relayCalls := 3,
        persistResult := some (saveTransactionToDB env.persistResponse),
        payer := some (detectPayer receipt addr).1,
        form := { recipient := "0x", amount := "" },
        caughtError := none } := by
  rw [handleSubmit_settled env addr n fq oph receipt hmee horc haddr hparse
    hbuild hquote hexec hsettle, if_pos hcond]

/-- `handleSubmit_settled`, failed branch. -/
theorem handleSubmit_settled_bad (env : Env) (addr : String) (n : Int)
    (fq : FusionQuote) (oph : String) (receipt : SupertransactionReceipt)
    (hmee : env.meeClient = true) (horc : env.orchestrator = true)
    (haddr : env.address = some addr)
    (hparse : parseUnits env.form.amount 18 = Except.ok n)
    (hbuild : env.buildResult = Except.ok ())
    (hquote : env.quoteResult = Except.ok fq)
    (hexec : env.executeResult = Except.ok oph)
    (hsettle : env.settlementResult = Except.ok receipt)
    (hcond : (successStatuses.contains receipt.transactionStatus &&
        receiptsNonempty receipt) = false) :
    handleSubmit env =
      failWith env ((if sponsorAvailable fq then ([] : List Toast)
            else [Toast.sponsorshipAdvisory]) ++
          (detectPayer receipt addr).2) 3 (some (detectPayer receipt addr).1)
        (.errObj ("Transaction failed with status: " ++
          receipt.transactionStatus)) := by
  have hcond2 : ¬ ((successStatuses.contains receipt.transactionStatus &&
      receiptsNonempty receipt) = true) := by rw [hcond]; simp
  rw [handleSubmit_settled env addr n fq oph receipt hmee horc haddr hparse
    hbuild hquote hexec hsettle, if_neg hcond2]

/-! Claim theorems. -/

/-- C1: when the settlement receipt's first mined transaction carries a
string sender field, the workflow classifies the payer by comparing it,
lowercased, with the lowercased submitting address — equality gives
USER_PAID, inequality SPONSORED; when probing that field throws instead (a
truthy non-string value), the exception is caught and logged, the
classification is UNKNOWN, and the run still ends in COMPLETED or FAILED
exactly as the status check dictates — classification never fails the
transfer. -/
theorem C1_payer_classification (env : Env) (addr : String) (n : Int)
    (fq : FusionQuote) (oph : String) (receipt : SupertransactionReceipt)
    (m : MinedReceipt) (rest : List MinedReceipt)
    (hmee : env.meeClient = true) (horc : env.orchestrator = true)
    (haddr : env.address = some addr)
    (hparse : parseUnits env.form.amount 18 = Except.ok n)
    (hbuild : env.buildResult = Except.ok ())
    (hquote : env.quoteResult = Except.ok fq)
    (hexec : env.executeResult = Except.ok oph)
    (hsettle : env.settlementResult = Except.ok receipt)
    (hrec : receipt.receipts = some (m :: rest)) :
    (∀ s, selectSenderField m = .vStr s →
      (handleSubmit env).payer =
        some (if jsToLower s = jsToLower addr then Payer.USER_PAID
              else Payer.SPONSORED)) ∧
    (jsToLowerCase (selectSenderField m) = .error () →
      (handleSubmit env).payer = some Payer.UNKNOWN) ∧
    ((handleSubmit env).outcome = .completed ∨
      (handleSubmit env).outcome = .failed) := by
  have heq := handleSubmit_settled env addr n fq oph receipt hmee horc haddr
    hparse hbuild hquote hexec hsettle
  have hpay : (handleSubmit env).payer = some (detectPayer receipt addr).1 := by
    rw [heq]
    split
    · rfl
    · exact failWith_payer _ _ _ _ _
  refine ⟨?_, ?_, ?_⟩
  · intro s hsel
    have hdp : detectPayer receipt addr =
        (if jsToLower s = jsToLower addr then
          (Payer.USER_PAID, [Toast.userPaidGas])
         else (Payer.SPONSORED, [Toast.relayerPaidGas])) := by
      simp only [detectPayer, hrec, hsel, jsToLowerCase]
    rw [hpay, hdp]
    by_cases hc : jsToLower s = jsToLower addr <;> simp [hc]
  · intro herr
    have hdp : detectPayer receipt addr = (Payer.UNKNOWN, []) := by
      simp only [detectPayer, hrec, herr]
    rw [hpay, hdp]
  · rw [heq]
    split
    · exact Or.inl rfl
    · exact Or.inr (failWith_outcome_errObj _ _ _ _ _)

/-- C1 witness: in the fully successful run the relayer-funded transaction
is classified against the user address. -/
theorem C1_payer_classification_w :
    (handleSubmit baseEnv).payer =
      some (if jsToLower "0xRELAYER" = jsToLower "0xUSER" then Payer.USER_PAID
            else Payer.SPONSORED) :=
  (C1_payer_classification baseEnv "0xUSER" tenTokens quoteSponsoredF
      "0xophash" receiptSuccessF minedFromRelayer [] rfl rfl rfl rfl rfl rfl
      rfl rfl rfl).1 "0xRELAYER" rfl

/-- C2 counterexample: with amount "0" (not greater than zero) and a
connected address, the handler does not fail with a precondition error and
zero network calls — it issues all three relayer calls and completes: the
amount guard the claim describes does not exist in the code. -/
theorem C2_cex :
    (handleSubmit envAmountZero).outcome = .completed ∧
    (handleSubmit envAmountZero).relayCalls = 3 := by decide

/-- C2 amended: when the Biconomy client, the orchestrator or the connected
address is missing, the handler returns immediately with only the
connect-wallet toast and zero relayer calls; a non-positive amount,
however, is not guarded and proceeds to the relayer. -/
theorem C2_missing_capability_guard (env : Env)
    (h : env.meeClient = false ∨ env.orchestrator = false ∨
      env.address = none) :
    (handleSubmit env).outcome = .earlyReturn ∧
    (handleSubmit env).relayCalls = 0 ∧
    (handleSubmit env).toasts = [Toast.connectWallet] := by
  obtain ⟨mee, orch, addr, tok, form, br, qr, er, sr, pr⟩ := env
  cases mee <;> cases orch <;> cases addr <;>
    first
      | exact ⟨rfl, rfl, rfl⟩
      | (rcases h with h | h | h <;> simp at h)

/-- C2 witness: a submission with no connected address returns early. -/
theorem C2_missing_capability_guard_w :
    (handleSubmit envNoAddress).outcome = .earlyReturn ∧
    (handleSubmit envNoAddress).relayCalls = 0 ∧
    (handleSubmit envNoAddress).toasts = [Toast.connectWallet] :=
  C2_missing_capability_guard envNoAddress (Or.inr (Or.inr rfl))

/-- C3: once a quote is received, the sponsorship advisory toast is emitted
exactly when none of `sponsor`, `sponsored`, `isSponsored` is truthy, and
execution proceeds regardless — at least the quote and execute relayer
calls are issued. -/
theorem C3_sponsorship_probe (env : Env) (addr : String) (n : Int)
    (fq : FusionQuote)
    (hmee : env.meeClient = true) (horc : env.orchestrator = true)
    (haddr : env.address = some addr)
    (hparse : parseUnits env.form.amount 18 = Except.ok n)
    (hbuild : env.buildResult = Except.ok ())
    (hquote : env.quoteResult = Except.ok fq) :
    (Toast.sponsorshipAdvisory ∈ (handleSubmit env).toasts ↔
      ¬ (truthy fq.sponsor = true ∨ truthy fq.sponsored = true ∨
          truthy fq.isSponsored = true)) ∧
    2 ≤ (handleSubmit env).relayCalls := by
  cases he : env.executeResult with
  | error e =>
    cases e with
    | errObj m =>
      simp only [handleSubmit, hmee, horc, haddr, hparse, hbuild, hquote, he]
      obtain ⟨t, hct, hfw⟩ := failWith_errObj env _ 2 none m
      rw [hfw]
      exact ⟨advisory_mem_iff fq [t] (advisory_notin_catch t hct), by norm_num⟩
    | noMessage =>
      simp only [handleSubmit, hmee, horc, haddr, hparse, hbuild, hquote, he]
      rw [failWith_noMessage]
      exact ⟨advisory_mem_core fq, by norm_num⟩
  | ok oph =>
  cases hs : env.settlementResult with
  | error e =>
    cases e with
    | errObj m =>
      simp only [handleSubmit, hmee, horc, haddr, hparse, hbuild, hquote, he,
        hs]
      obtain ⟨t, hct, hfw⟩ := failWith_errObj env _ 3 none m
      rw [hfw]
      exact ⟨advisory_mem_iff fq [t] (advisory_notin_catch t hct), by norm_num⟩
    | noMessage =>
      simp only [handleSubmit, hmee, horc, haddr, hparse, hbuild, hquote, he,
        hs]
      rw [failWith_noMessage]
      exact ⟨advisory_mem_core fq, by norm_num⟩
  | ok receipt =>
  simp only [handleSubmit, hmee, horc, haddr, hparse, hbuild, hquote, he, hs]
  rcases detectPayer_cases receipt addr with hpd | hpd | hpd <;>
    simp only [hpd] <;> split
  · rw [List.append_assoc]
    exact ⟨advisory_mem_iff fq _ (by simp), by norm_num⟩
  · obtain ⟨t, hct, hfw⟩ := failWith_errObj env _ 3 (some Payer.USER_PAID) _
    rw [hfw, List.append_assoc]
    refine ⟨advisory_mem_iff fq _ ?_, by norm_num⟩
    intro hx
    rcases List.mem_append.mp hx with hx | hx
    · simp at hx
    · exact advisory_notin_catch t hct hx
  · rw [List.append_assoc]
    exact ⟨advisory_mem_iff fq _ (by simp), by norm_num⟩
  · obtain ⟨t, hct, hfw⟩ := failWith_errObj env _ 3 (some Payer.SPONSORED) _
    rw [hfw, List.append_assoc]
    refine ⟨advisory_mem_iff fq _ ?_, by norm_num⟩
    intro hx
    rcases List.mem_append.mp hx with hx | hx
    · simp at hx
    · exact advisory_notin_catch t hct hx
  · rw [List.append_assoc]
    exact ⟨advisory_mem_iff fq _ (by simp), by norm_num⟩
  · obtain ⟨t, hct, hfw⟩ := failWith_errObj env _ 3 (some Payer.UNKNOWN) _
    rw [hfw, List.append_assoc]
    refine ⟨advisory_mem_iff fq _ ?_, by norm_num⟩
    intro hx
    rcases List.mem_append.mp hx with hx | hx
    · simp at hx
    · exact advisory_notin_catch t hct hx

/-- C3 witness: a quote with none of the three indicators makes the
advisory appear while execution is still attempted. -/
theorem C3_sponsorship_probe_w :
    Toast.sponsorshipAdvisory ∈ (handleSubmit envNoSponsor).toasts ∧
    2 ≤ (handleSubmit envNoSponsor).relayCalls :=
  ⟨(C3_sponsorship_probe envNoSponsor "0xUSER" tenTokens quoteNoSponsorF
      rfl rfl rfl rfl rfl rfl).1.mpr (by decide),
   (C3_sponsorship_probe envNoSponsor "0xUSER" tenTokens quoteNoSponsorF
      rfl rfl rfl rfl rfl rfl).2⟩

/-- C4: a settlement receipt whose status is outside SUCCESS and
MINED_SUCCESS, or whose mined-transaction list is absent or empty, ends the
run FAILED (never COMPLETED) with the settlement-status error reaching the
catch block, and the persistence endpoint is never called. -/
theorem C4_settlement_guard (env : Env) (addr : String) (n : Int)
    (fq : FusionQuote) (oph : String) (receipt : SupertransactionReceipt)
    (hmee : env.meeClient = true) (horc : env.orchestrator = true)
    (haddr : env.address = some addr)
    (hparse : parseUnits env.form.amount 18 = Except.ok n)
    (hbuild : env.buildResult = Except.ok ())
    (hquote : env.quoteResult = Except.ok fq)
    (hexec : env.executeResult = Except.ok oph)
    (hsettle : env.settlementResult = Except.ok receipt)
    (hbad : successStatuses.contains receipt.transactionStatus = false ∨
      receiptsNonempty receipt = false) :
    (handleSubmit env).outcome = .failed ∧
    (handleSubmit env).persistResult = none ∧
    (handleSubmit env).caughtError =
      some (.errObj ("Transaction failed with status: " ++
        receipt.transactionStatus)) := by
  have hcond : (successStatuses.contains receipt.transactionStatus &&
      receiptsNonempty receipt) = false := by
    rcases hbad with h | h <;> rw [h] <;> simp
  rw [handleSubmit_settled_bad env addr n fq oph receipt hmee horc haddr
    hparse hbuild hquote hexec hsettle hcond]
  exact ⟨failWith_outcome_errObj _ _ _ _ _, failWith_persist _ _ _ _ _,
    failWith_caught _ _ _ _ _⟩

/-- C4 witness: a FAILED settlement status ends the run FAILED with no
persistence call. -/
theorem C4_settlement_guard_w :
    (handleSubmit envSettlementFailed).outcome = .failed ∧
    (handleSubmit envSettlementFailed).persistResult = none ∧
    (handleSubmit envSettlementFailed).caughtError =
      some (.errObj ("Transaction failed with status: " ++
        receiptFailedF.transactionStatus)) :=
  C4_settlement_guard envSettlementFailed "0xUSER" tenTokens quoteSponsoredF
    "0xophash" receiptFailedF rfl rfl rfl rfl rfl rfl rfl rfl
    (Or.inl (by decide))

/-- C5: after a successful on-chain settlement, a failing persistence POST
(non-2xx response or a thrown network error) is caught and logged inside
`saveTransactionToDB`, and the run still completes. -/
theorem C5_persistence_failure_swallowed (env : Env) (addr : String)
    (n : Int) (fq : FusionQuote) (oph : String)
    (receipt : SupertransactionReceipt)
    (hmee : env.meeClient = true) (horc : env.orchestrator = true)
    (haddr : env.address = some addr)
    (hparse : parseUnits env.form.amount 18 = Except.ok n)
    (hbuild : env.buildResult = Except.ok ())
    (hquote : env.quoteResult = Except.ok fq)
    (hexec : env.executeResult = Except.ok oph)
    (hsettle : env.settlementResult = Except.ok receipt)
    (hgood : successStatuses.contains receipt.transactionStatus = true)
    (hne : receiptsNonempty receipt = true)
    (hfail : env.persistResponse ≠ .httpOk) :
    saveTransactionToDB env.persistResponse = none ∧
    (handleSubmit env).outcome = .completed ∧
    (handleSubmit env).persistResult = some none := by
  have hsave : saveTransactionToDB env.persistResponse = none := by
    cases hpr : env.persistResponse
    · exact absurd hpr hfail
    · rfl
    · rfl
  rw [handleSubmit_settled_completed env addr n fq oph receipt hmee horc
    haddr hparse hbuild hquote hexec hsettle (by rw [hgood, hne]; rfl)]
  exact ⟨hsave, rfl, by rw [hsave]⟩

/-- C5 witness: an HTTP 500 from the persistence endpoint after a
successful settlement leaves the run COMPLETED. -/
theorem C5_persistence_failure_swallowed_w :
    saveTransactionToDB envPersistFailed.persistResponse = none ∧
    (handleSubmit envPersistFailed).outcome = .completed ∧
    (handleSubmit envPersistFailed).persistResult = some none :=
  C5_persistence_failure_swallowed envPersistFailed "0xUSER" tenTokens
    quoteSponsoredF "0xophash" receiptSuccessF rfl rfl rfl rfl rfl rfl rfl
    rfl rfl rfl (by decide)

/-- C6 counterexample: with the RPC env var absent the wagmi config
silently substitutes the public default endpoint, and with the token env
var absent the submit handler silently reads `undefined` and still runs to
COMPLETED — initialization never fails loudly. -/
theorem C6_cex :
    configRpcUrl none = "https://polygon-rpc.com" ∧
    (handleSubmit envNoToken).outcome = .completed ∧
    tokenAddressRead envNoToken = some JsVal.vUndefined := by decide

/-- C6 amended: an absent RPC URL falls back silently to
https://polygon-rpc.com; the token address is read unchecked — the
handler's behaviour is entirely independent of whether the token env var is
present, and once the guard passes an absent variable is simply read as
`undefined`. -/
theorem C6_silent_defaults (env : Env) (t : Option String) :
    configRpcUrl none = "https://polygon-rpc.com" ∧
    handleSubmit { env with npyTokenAddress := t } = handleSubmit env ∧
    (env.meeClient = true → env.orchestrator = true →
      ∀ a, env.address = some a →
        tokenAddressRead { env with npyTokenAddress := none } =
          some JsVal.vUndefined) := by
  refine ⟨rfl, rfl, ?_⟩
  intro h1 h2 a h3
  simp [tokenAddressRead, h1, h2, h3, jsOfOption]

/-- C6 witness: at the concrete successful environment the token read
yields `undefined` when the variable is removed. -/
theorem C6_silent_defaults_w :
    tokenAddressRead { baseEnv with npyTokenAddress := none } =
      some JsVal.vUndefined :=
  (C6_silent_defaults baseEnv (some "0xNPY")).2.2 rfl rfl "0xUSER" rfl

/-- C7 counterexample: a single FAILED run emits three notifications (the
sponsorship advisory, a payer notification and the failure toast), not
exactly one. -/
theorem C7_cex :
    (handleSubmit envAdvisoryThenFailed).outcome = .failed ∧
    (handleSubmit envAdvisoryThenFailed).toasts =
      [Toast.sponsorshipAdvisory, Toast.relayerPaidGas,
        Toast.txFailed "Transaction failed with status: FAILED"] ∧
    (handleSubmit envAdvisoryThenFailed).toasts.length = 3 := by decide

/-- C7 amended: every FAILED outcome emits exactly one failure notification
from the catch handler (it may be preceded by the sponsorship advisory and
a payer notification); every COMPLETED outcome emits exactly one
fixed-wording final success notification and exactly one payer notification
— whose wording differs by classification — unless payer detection threw
(classification UNKNOWN), in which case no payer notification appears. -/
theorem C7_notification_counts (env : Env) :
    ((handleSubmit env).outcome = .failed →
      ((handleSubmit env).toasts.filter isCatchToast).length = 1) ∧
    ((handleSubmit env).outcome = .completed →
      (handleSubmit env).toasts.count Toast.success = 1 ∧
      ((handleSubmit env).toasts.filter isPayerToast).length =
        (if (handleSubmit env).payer = some Payer.UNKNOWN then 0 else 1)) ∧
    Toast.render Toast.userPaidGas ≠ Toast.render Toast.relayerPaidGas := by
  refine ⟨?_, ?_, by decide⟩
  · intro hout
    rcases handleSubmit_char env with h | ⟨pre, calls, payer, m, hpre, h⟩ |
      ⟨pre, calls, payer, h⟩ | ⟨adv, pd, hadv, hpd, h⟩
    · rw [h] at hout; simp [earlyResult] at hout
    · obtain ⟨t, hct, hfw⟩ := failWith_errObj env pre calls payer m
      rw [h, hfw]
      show ((pre ++ [t]).filter isCatchToast).length = 1
      rw [List.filter_append, filter_catch_of_benign pre hpre]
      simp [hct]
    · rw [h, failWith_noMessage] at hout; simp at hout
    · rw [h] at hout; simp at hout
  · intro hout
    rcases handleSubmit_char env with h | ⟨pre, calls, payer, m, hpre, h⟩ |
      ⟨pre, calls, payer, h⟩ | ⟨adv, pd, hadv, hpd, h⟩
    · rw [h] at hout; simp [earlyResult] at hout
    · obtain ⟨t, hct, hfw⟩ := failWith_errObj env pre calls payer m
      rw [h, hfw] at hout; simp at hout
    · rw [h, failWith_noMessage] at hout; simp at hout
    · rw [h]
      rcases hadv with rfl | rfl <;> rcases hpd with rfl | rfl | rfl <;>
        refine ⟨?_, ?_⟩ <;> (dsimp only; decide)

/-- C7 witness: the failure filter counts one catch toast on the
three-toast failed run, and the completed run has exactly one success and
one payer toast. -/
theorem C7_notification_counts_w :
    ((handleSubmit envAdvisoryThenFailed).toasts.filter isCatchToast).length
        = 1 ∧
    ((handleSubmit baseEnv).toasts.count Toast.success = 1 ∧
      ((handleSubmit baseEnv).toasts.filter isPayerToast).length =
        (if (handleSubmit baseEnv).payer = some Payer.UNKNOWN then 0
         else 1)) :=
  ⟨(C7_notification_counts envAdvisoryThenFailed).1 (by decide),
   (C7_notification_counts baseEnv).2.1 (by decide)⟩

/-- C8 counterexample: when the quote step throws a value without a string
message, the catch handler itself throws a TypeError on
`error.message.includes`, and the error propagates uncaught past the
submit handler instead of producing a FAILED toast. -/
theorem C8_cex :
    (handleSubmit envThrownNoMessage).outcome = .crashed ∧
    (handleSubmit envThrownNoMessage).toasts = [] := by decide

/-- C8 amended: every error carrying a string message that reaches the
catch block yields a terminal FAILED outcome with a toast; an error value
without a string message makes the catch handler itself throw, so the run
crashes (the error escapes the handler). -/
theorem C8_error_boundary (env : Env) (m : String) :
    ((handleSubmit env).caughtError = some (JsError.errObj m) →
      (handleSubmit env).outcome = .failed) ∧
    ((handleSubmit env).caughtError = some JsError.noMessage →
      (handleSubmit env).outcome = .crashed) := by
  rcases handleSubmit_char env with h | ⟨pre, calls, payer, m', hpre, h⟩ |
    ⟨pre, calls, payer, h⟩ | ⟨adv, pd, hadv, hpd, h⟩
  · rw [h]; constructor <;> intro hc <;> simp [earlyResult] at hc
  · obtain ⟨t, hct, hfw⟩ := failWith_errObj env pre calls payer m'
    rw [h, hfw]
    constructor
    · intro _; rfl
    · intro hc; simp at hc
  · rw [h, failWith_noMessage]
    constructor
    · intro hc; simp at hc
    · intro _; rfl
  · rw [h]; constructor <;> intro hc <;> simp at hc

/-- C8 witness: a message-carrying quote error fails the run; a
message-less one crashes it. -/
theorem C8_error_boundary_w :
    (handleSubmit envQuoteError).outcome = .failed ∧
    (handleSubmit envThrownNoMessage).outcome = .crashed :=
  ⟨(C8_error_boundary envQuoteError "relayer quote rejected").1 (by decide),
   (C8_error_boundary envThrownNoMessage "x").2 (by decide)⟩

/-- C9: when the first mined receipt exists but carries none of `from`,
`fromAddress` or `sender`, the probe falls back to the empty string, which
differs from the user's non-empty lowercased address, so the detector
classifies the transfer SPONSORED — never UNKNOWN. -/
theorem C9_absent_sender_is_sponsored (receipt : SupertransactionReceipt)
    (m : MinedReceipt) (rest : List MinedReceipt) (addr : String)
    (hrec : receipt.receipts = some (m :: rest))
    (hf : m.fromF = .vUndefined) (hfa : m.fromAddress = .vUndefined)
    (hs : m.sender = .vUndefined) (haddr : jsToLower addr ≠ "") :
    (detectPayer receipt addr).1 = Payer.SPONSORED := by
  have hsel : selectSenderField m = .vStr "" := by
    simp [selectSenderField, hf, hfa, hs, jsOr, truthy]
  have hne : ¬ (jsToLower "" = jsToLower addr) := fun h =>
    haddr (h.symm.trans rfl)
  simp only [detectPayer, hrec, hsel, jsToLowerCase]
  rw [if_neg hne]

/-- C9 witness: a mined receipt with no sender-ish field at all is
classified SPONSORED against the concrete user address. -/
theorem C9_absent_sender_is_sponsored_w :
    (detectPayer receiptNoSenderF "0xUSER").1 = Payer.SPONSORED :=
  C9_absent_sender_is_sponsored receiptNoSenderF minedNoSender [] "0xUSER"
    rfl rfl rfl rfl (by decide)

/-- C10: a COMPLETED run resets the form to recipient "0x" and an empty
amount; a FAILED run leaves both form fields unchanged. -/
theorem C10_form_reset (env : Env) :
    ((handleSubmit env).outcome = .completed →
      (handleSubmit env).form = { recipient := "0x", amount := "" }) ∧
    ((handleSubmit env).outcome = .failed →
      (handleSubmit env).form = env.form) := by
  rcases handleSubmit_char env with h | ⟨pre, calls, payer, m, hpre, h⟩ |
    ⟨pre, calls, payer, h⟩ | ⟨adv, pd, hadv, hpd, h⟩
  · rw [h]; constructor <;> intro hc <;> simp [earlyResult] at hc
  · obtain ⟨t, hct, hfw⟩ := failWith_errObj env pre calls payer m
    rw [h, hfw]
    exact ⟨fun hc => by simp at hc, fun _ => rfl⟩
  · rw [h, failWith_noMessage]
    exact ⟨fun hc => by simp at hc, fun hc => by simp at hc⟩
  · rw [h]
    exact ⟨fun _ => rfl, fun hc => by simp at hc⟩

/-- C10 witness: the successful run resets the form, the failed run keeps
it. -/
theorem C10_form_reset_w :
    (handleSubmit baseEnv).form = { recipient := "0x", amount := "" } ∧
    (handleSubmit envSettlementFailed).form = envSettlementFailed.form :=
  ⟨(C10_form_reset baseEnv).1 (by decide),
   (C10_form_reset envSettlementFailed).2 (by decide)⟩

end NPY
